/-
Verification of the FitFindr recommendation core.

Shallow embedding of the scoring, filtering, ranking, outfit-assembly and
feedback-aggregation logic of `core/recommender.py` and `core/feedback.py`.
Python floats are modelled by exact rationals (ℚ); every numeric literal in
the source is an exact decimal, so the model is exact on the values the
claims mention.  Python strings are Lean `String`s; Python's substring test
`a in b` is `pyIn`; `str.lower()` is `pyLower`; `str.split()` is
`pySplit`.  Wall-clock fields (timestamps, uuids) are omitted: no claim
mentions them.  `random.choice` in the outfit assembler is modelled by an
arbitrary choice oracle `ch : Nat → Nat → Nat` supplying, for each outfit
index and category slot, an index into the candidate pool; all theorems
about the assembler hold for every oracle.
-/

import Mathlib

set_option maxHeartbeats 1000000

/-! ### String helpers (Python semantics) -/

/-- `leadsWith n h` : the char list `n` is an initial segment of `h`. -/
def leadsWith : List Char → List Char → Bool
  | [], _ => true
  | _ :: _, [] => false
  | a :: as, b :: bs => a == b && leadsWith as bs

/-- `hasSub n h` : the char list `n` occurs contiguously inside `h`
(Python's `n in h` on strings; the empty needle always matches). -/
def hasSub (needle : List Char) : List Char → Bool
  | [] => leadsWith needle []
  | b :: bs => leadsWith needle (b :: bs) || hasSub needle bs

/-- Python's substring containment `needle in hay`. -/
def pyIn (needle hay : String) : Bool :=
  hasSub needle.data hay.data

/-- Python's `str.lower()` (character-wise lowering; kernel-computable,
unlike `String.toLower` whose `mapAux` is defined on byte positions). -/
def pyLower (s : String) : String :=
  String.mk (s.data.map Char.toLower)

/-- Helper for `pySplit`: scan the characters, accumulating the current
word reversed; whitespace closes a word, empty pieces are dropped. -/
def wordsAux : List Char → List Char → List String
  | [], [] => []
  | [], acc => [String.mk acc.reverse]
  | c :: cs, acc =>
    if c.isWhitespace then
      if acc.isEmpty then wordsAux cs [] else String.mk acc.reverse :: wordsAux cs []
    else wordsAux cs (c :: acc)

/-- Python's `str.split()` : split on whitespace, dropping empty pieces. -/
def pySplit (s : String) : List String :=
  wordsAux s.data []

/-! ### Data model -/

/-- A user profile, as consumed by the recommender
(`user_profile` dict in `core/recommender.py`; absent keys modelled by
`""` / `[]`, matching the `.get` defaults in the source). -/
structure Profile where
  body_shape : String
  preferred_style : String
  recommended_colors : List String
deriving DecidableEq

/-- A catalog item (item dict; absent keys modelled by `""` / `[]` / `0`,
matching the `.get` defaults in the source). -/
structure Item where
  id : String
  category : String
  style : String
  colors : List String
  title : String
  description : String
  likes : Nat
  saves : Nat
deriving DecidableEq

/-- A scored item: the source merges the score dict into the item dict;
we model the pair of the original item and the computed fields. -/
structure ScoredItem where
  item : Item
  fit_score : ℚ
  style_score : ℚ
  trend_score : ℚ
  feedback_score : ℚ
  overall_score : ℚ
  explanation : String
  styling_tips : List String
deriving DecidableEq

/-! ### Item scorer (`OutfitRecommender._calculate_*` in core/recommender.py) -/

/-- `round(x, 1)` of the source: round to the nearest tenth.  Every value it
is applied to in this development is an exact multiple of 1/10, so no
tie-breaking rule is ever exercised. -/
def roundTo1 (q : ℚ) : ℚ :=
  ((round (q * 10) : ℤ) : ℚ) / 10

/-- `compatibility_rules.get(body_shape, {}).get(item_category, 75)`:
the static (body shape, category) → base fit score table, defaulting to 75
when either key is absent. -/
def compatBase (shape cat : String) : Nat :=
  if shape = "hourglass" then
    if cat = "top" then 85 else if cat = "bottom" then 80
    else if cat = "dress" then 90 else if cat = "outerwear" then 75
    else if cat = "shoes" then 70 else if cat = "accessories" then 80 else 75
  else if shape = "pear" then
    if cat = "top" then 90 else if cat = "bottom" then 75
    else if cat = "dress" then 85 else if cat = "outerwear" then 80
    else if cat = "shoes" then 75 else if cat = "accessories" then 85 else 75
  else if shape = "apple" then
    if cat = "top" then 70 else if cat = "bottom" then 85
    else if cat = "dress" then 80 else if cat = "outerwear" then 90
    else if cat = "shoes" then 80 else if cat = "accessories" then 75 else 75
  else if shape = "rectangle" then
    if cat = "top" then 80 else if cat = "bottom" then 80
    else if cat = "dress" then 85 else if cat = "outerwear" then 85
    else if cat = "shoes" then 75 else if cat = "accessories" then 80 else 75
  else if shape = "inverted triangle" then
    if cat = "top" then 75 else if cat = "bottom" then 90
    else if cat = "dress" then 80 else if cat = "outerwear" then 70
    else if cat = "shoes" then 80 else if cat = "accessories" then 85 else 75
  else 75

/-- `positive_keywords.get(body_shape, [])`. -/
def positiveKeywords (shape : String) : List String :=
  if shape = "hourglass" then ["belted", "wrap", "fitted", "cinched", "defined"]
  else if shape = "pear" then ["flowy", "a-line", "empire", "high-waisted", "structured"]
  else if shape = "apple" then ["v-neck", "wrap", "a-line", "empire", "flowy"]
  else if shape = "rectangle" then ["structured", "fitted", "belted", "layered", "textured"]
  else if shape = "inverted triangle" then ["wide-leg", "a-line", "flowy", "layered", "textured"]
  else []

/-- `_calculate_fit_score`, as a natural number: all the Python values in
this function are integers (table entries, +5 bonuses, `min(·, 100)`). -/
def fitScoreNat (p : Profile) (it : Item) : Nat :=
  let body_shape := pyLower p.body_shape
  let item_category := pyLower it.category
  let base_score := compatBase body_shape item_category
  let item_title := pyLower it.title
  let item_description := pyLower it.description
  let keywords := positiveKeywords body_shape
  let keyword_bonus :=
    5 * (keywords.filter (fun k => pyIn k item_title || pyIn k item_description)).length
  min (base_score + keyword_bonus) 100

/-- `OutfitRecommender._calculate_fit_score`. -/
def calculateFitScore (p : Profile) (it : Item) : ℚ :=
  (fitScoreNat p it : ℚ)

/-- `style_keywords.get(user_style, [])`. -/
def styleKeywords (s : String) : List String :=
  if s = "vintage" then ["vintage", "retro", "classic", "timeless", "antique"]
  else if s = "streetwear" then ["street", "urban", "casual", "cool", "edgy"]
  else if s = "formal" then ["elegant", "sophisticated", "professional", "refined"]
  else if s = "casual" then ["relaxed", "comfortable", "everyday", "easy"]
  else if s = "bohemian" then ["boho", "free-spirited", "artistic", "flowy"]
  else if s = "minimalist" then ["clean", "simple", "modern", "minimal"]
  else []

/-- `_calculate_style_score`, as a natural number: all its Python values
(75, 90, 70 + 5·matches, 60) are integers. -/
def styleScoreNat (p : Profile) (it : Item) : Nat :=
  let user_style := pyLower p.preferred_style
  let item_style := pyLower it.style
  let item_title := pyLower it.title
  let item_description := pyLower it.description
  if user_style = "" then 75
  else if pyIn user_style item_style || pyIn item_style user_style then 90
  else
    let user_keywords := styleKeywords user_style
    let matchCount := (user_keywords.filter (fun k =>
      pyIn k item_style || pyIn k item_title || pyIn k item_description)).length
    if 0 < matchCount then 70 + matchCount * 5 else 60

/-- `OutfitRecommender._calculate_style_score`. -/
def calculateStyleScore (p : Profile) (it : Item) : ℚ :=
  (styleScoreNat p it : ℚ)

/-- `engagement_score = (likes * 0.7) + (saves * 1.3)`. -/
def engagementScore (it : Item) : ℚ :=
  (it.likes : ℚ) * (0.7 : ℚ) + (it.saves : ℚ) * (1.3 : ℚ)

/-- `_calculate_trend_score`, as a natural number: the banding thresholds in
the source are the strict comparisons `>`, and the band values are integers. -/
def trendScoreNat (it : Item) : Nat :=
  if 1000 < engagementScore it then 100
  else if 500 < engagementScore it then 80
  else if 100 < engagementScore it then 60
  else 40

/-- `OutfitRecommender._calculate_trend_score`. -/
def calculateTrendScore (it : Item) : ℚ :=
  (trendScoreNat it : ℚ)

/-- `OutfitRecommender._calculate_feedback_score` (constant neutral 75). -/
def calculateFeedbackScore (_p : Profile) (_it : Item) : ℚ :=
  ((75 : Nat) : ℚ)

/-- `OutfitRecommender._generate_score_explanation`. -/
def generateScoreExplanation (_fit _style overall : ℚ) : String :=
  if 85 ≤ overall then
    "Excellent match! This item perfectly complements your style and body type."
  else if 75 ≤ overall then
    "Great choice! This item works well with your preferences and body shape."
  else if 65 ≤ overall then
    "Good option! This item has potential with some styling adjustments."
  else
    "Consider alternatives. This item may not be the best fit for your style."

/-- `OutfitRecommender._generate_styling_tips`. -/
def generateStylingTips (p : Profile) (it : Item) : List String :=
  let body_shape := pyLower p.body_shape
  let item_category := pyLower it.category
  let tips₁ :=
    if item_category = "top" then
      ["Tuck in for a more polished look", "Layer with a jacket or cardigan"]
    else if item_category = "bottom" then
      ["Pair with a fitted top to balance proportions",
       "Consider the right footwear for the occasion"]
    else if item_category = "outerwear" then
      ["Layer over a simple base", "Belt it for a more defined silhouette"]
    else []
  let tips₂ :=
    if body_shape = "hourglass" then
      ["Emphasize your waist with a belt",
       "Choose fitted silhouettes that follow your curves"]
    else if body_shape = "pear" then
      ["Balance with a statement top", "Draw attention upward with accessories"]
    else if body_shape = "apple" then
      ["Create vertical lines with your outfit",
       "Choose pieces that skim rather than cling"]
    else []
  (tips₁ ++ tips₂).take 3

/-- `OutfitRecommender._calculate_item_score`: the four component scores,
their weighted combination with weights 0.4/0.3/0.2/0.1, and the derived
explanation and tips, each numeric field rounded to 1 decimal. -/
def calculateItemScore (p : Profile) (it : Item) : ScoredItem :=
  let fit_score := calculateFitScore p it
  let style_score := calculateStyleScore p it
  let trend_score := calculateTrendScore it
  let feedback_score := calculateFeedbackScore p it
  let overall_score :=
    fit_score * (0.4 : ℚ) + style_score * (0.3 : ℚ) +
    trend_score * (0.2 : ℚ) + feedback_score * (0.1 : ℚ)
  { item := it
    fit_score := roundTo1 fit_score
    style_score := roundTo1 style_score
    trend_score := roundTo1 trend_score
    feedback_score := roundTo1 feedback_score
    overall_score := roundTo1 overall_score
    explanation := generateScoreExplanation fit_score style_score overall_score
    styling_tips := generateStylingTips p it }

/-! ### Item filter (`_filter_items_by_preferences`) -/

/-- The style gate of the filter, for one item. -/
def styleMatchB (p : Profile) (it : Item) : Bool :=
  let user_style := pyLower p.preferred_style
  let item_style := pyLower it.style
  user_style = "" || pyIn user_style item_style || pyIn item_style user_style ||
    (pySplit user_style).any (fun keyword => pyIn keyword item_style)

/-- The color gate of the filter, for one item. -/
def colorMatchB (p : Profile) (it : Item) : Bool :=
  let recommended_colors := p.recommended_colors.map pyLower
  let item_colors := it.colors.map pyLower
  recommended_colors.isEmpty ||
    recommended_colors.any (fun c => item_colors.contains c) ||
    item_colors.any (fun c => recommended_colors.contains c)

/-- `OutfitRecommender._filter_items_by_preferences`. -/
def filterItemsByPreferences (p : Profile) (items : List Item) : List Item :=
  items.filter (fun it => styleMatchB p it && colorMatchB p it)

/-! ### Ranker (`recommend_outfits`) -/

/-- One step of the stable descending insertion sort: `x` (originally before
every element of the list) moves right past exactly the elements with a
strictly larger key.  This is the unique stable descending sort, i.e. the
behaviour of Python's `list.sort(key=…, reverse=True)`. -/
def insertDescBy (key : α → ℚ) (x : α) : List α → List α
  | [] => [x]
  | y :: ys => if key x < key y then y :: insertDescBy key x ys else x :: y :: ys

/-- Stable descending sort by a rational key. -/
def sortDescBy (key : α → ℚ) : List α → List α
  | [] => []
  | x :: xs => insertDescBy key x (sortDescBy key xs)

/-- `OutfitRecommender.recommend_outfits`: filter (falling back to the whole
catalog when the filter leaves nothing), score, stable-sort descending by
overall score, truncate. -/
def recommendOutfits (p : Profile) (available_items : List Item)
    (max_recommendations : Nat := 10) : List ScoredItem :=
  let filtered_items := filterItemsByPreferences p available_items
  let pool := if filtered_items.isEmpty then available_items else filtered_items
  let scored_items := pool.map (calculateItemScore p)
  (sortDescBy (fun s => s.overall_score) scored_items).take max_recommendations

/-! ### Outfit assembler (`create_outfit_combinations`) -/

/-- An outfit (`outfit` dict in the source; the creation timestamp is
omitted). -/
structure Outfit where
  outfit_id : String
  items : List ScoredItem
  total_score : ℚ
  style_cohesion : ℚ
deriving DecidableEq

/-- `OutfitRecommender._calculate_style_cohesion`. -/
def styleCohesion (items : List ScoredItem) : ℚ :=
  if items.length < 2 then 50
  else
    let styles := items.map (fun it => pyLower it.item.style)
    let unique_styles := styles.dedup.length
    roundTo1 (max 20 (100 - (unique_styles : ℤ) * 20) : ℤ)

/-- `random.choice(l)` for nonempty `l`, driven by a choice index `k`: the
element at position `k % l.length`.  Quantifying theorems over `k` covers
every behaviour of the random source.  On `[]` (never reached: the source
guards each choice with a nonemptiness test) it yields no item. -/
def pickFrom (k : Nat) : List ScoredItem → List ScoredItem
  | [] => []
  | x :: xs => [(x :: xs).get ⟨k % (xs.length + 1), Nat.mod_lt _ (Nat.succ_pos _)⟩]

/-- `OutfitRecommender.create_outfit_combinations`, parameterised by the
choice oracle `ch` (outfit index, category slot ↦ choice index) standing for
`random.choice`.  Groups the recommendations by category, then builds
`min 5 |recs|` outfits, each taking at most one item from the top slice of
each of the five wearable categories. -/
def createOutfitCombinations (ch : Nat → Nat → Nat)
    (recommendations : List ScoredItem) : List Outfit :=
  let tops := recommendations.filter (fun r => r.item.category = "top")
  let bottoms := recommendations.filter (fun r => r.item.category = "bottom")
  let outerwear := recommendations.filter (fun r => r.item.category = "outerwear")
  let shoes := recommendations.filter (fun r => r.item.category = "shoes")
  let accessories := recommendations.filter (fun r => r.item.category = "accessories")
  (List.range (min 5 recommendations.length)).map (fun i =>
    let items :=
      pickFrom (ch i 0) (tops.take 3) ++ pickFrom (ch i 1) (bottoms.take 3) ++
      pickFrom (ch i 2) (outerwear.take 2) ++ pickFrom (ch i 3) (shoes.take 2) ++
      pickFrom (ch i 4) (accessories.take 2)
    { outfit_id := "outfit_" ++ toString (i + 1)
      items := items
      total_score :=
        if items.isEmpty then 0
        else roundTo1 ((items.map (fun x => x.overall_score)).sum / items.length)
      style_cohesion := if items.isEmpty then 0 else styleCohesion items })

/-! ### Feedback manager (core/feedback.py) -/

/-- `FeedbackManager.feedback_types`. -/
def feedbackTypes : List String :=
  ["like", "dislike", "save", "share", "view"]

/-- `FeedbackManager.importance_weights.get(t, 0.5)`. -/
def importanceWeight (t : String) : ℚ :=
  if t = "like" then (1.0 : ℚ)
  else if t = "dislike" then -(0.8 : ℚ)
  else if t = "save" then (0.9 : ℚ)
  else if t = "share" then (0.7 : ℚ)
  else if t = "view" then (0.3 : ℚ)
  else (0.5 : ℚ)

/-- A stored feedback record (`feedback_record` dict; the uuid, timestamp
and `additional_data` fields are omitted: no claim mentions them). -/
structure FeedbackRecord where
  user_id : String
  item_id : String
  feedback_type : String
  importance : ℚ
deriving DecidableEq

/-- `FeedbackManager.record_feedback`: rejects an unrecognized feedback
type with `ValueError`, otherwise builds the stored record carrying the
given type and its importance weight. -/
def recordFeedback (user_id item_id feedback_type : String) :
    Except String FeedbackRecord :=
  if feedback_type ∈ feedbackTypes then
    Except.ok { user_id := user_id, item_id := item_id,
                feedback_type := feedback_type,
                importance := importanceWeight feedback_type }
  else
    Except.error "Invalid feedback type"

/-- A user's `feedback_history` projection (the style/color/category
preference lists of the source are never written by the code and are
omitted). -/
structure FeedbackHistory where
  liked_items : List String
  disliked_items : List String
  saved_items : List String
deriving DecidableEq

/-- The freshly initialised `feedback_history` of the source. -/
def emptyHistory : FeedbackHistory :=
  { liked_items := [], disliked_items := [], saved_items := [] }

/-- `FeedbackManager._update_user_preferences`, acting on one user's
`feedback_history`: "like" inserts into `liked_items` (if absent) and
removes from `disliked_items` (first occurrence, if present); "dislike"
symmetrically; "save" inserts into `saved_items`; anything else is a no-op. -/
def updateUserPreferences (h : FeedbackHistory) (item_id feedback_type : String) :
    FeedbackHistory :=
  if feedback_type = "like" then
    { h with
      liked_items :=
        if item_id ∈ h.liked_items then h.liked_items
        else h.liked_items ++ [item_id]
      disliked_items :=
        if item_id ∈ h.disliked_items then h.disliked_items.erase item_id
        else h.disliked_items }
  else if feedback_type = "dislike" then
    { h with
      disliked_items :=
        if item_id ∈ h.disliked_items then h.disliked_items
        else h.disliked_items ++ [item_id]
      liked_items :=
        if item_id ∈ h.liked_items then h.liked_items.erase item_id
        else h.liked_items }
  else if feedback_type = "save" then
    { h with
      saved_items :=
        if item_id ∈ h.saved_items then h.saved_items
        else h.saved_items ++ [item_id] }
  else h

/-- The `feedback_history` of a user after a sequence of recorded events
`(item_id, feedback_type)`, starting from the freshly initialised history. -/
def applyEvents (events : List (String × String)) : FeedbackHistory :=
  events.foldl (fun h e => updateUserPreferences h e.1 e.2) emptyHistory

/-- The user's total event count
(`get_user_feedback_summary(u)["total_feedback"]`). -/
def countUserFeedback (log : List FeedbackRecord) (user_id : String) : Nat :=
  (log.filter (fun f => f.user_id = user_id)).length

/-- The user's per-kind event count
(`get_user_feedback_summary(u)["feedback_breakdown"][t]`). -/
def countUserFeedbackOfType (log : List FeedbackRecord) (user_id t : String) : Nat :=
  (log.filter (fun f => f.user_id = user_id ∧ f.feedback_type = t)).length

/-- Result of `get_recommendation_improvements`: the `feedback_quality` key
is only present on the ≥3-events branch, hence an `Option`. -/
structure ImprovementResult where
  needs_more_feedback : Bool
  suggestions : List String
  feedback_quality : Option String
deriving DecidableEq

/-- `FeedbackManager.get_recommendation_improvements`, as a function of the
feedback log. -/
def getRecommendationImprovements (log : List FeedbackRecord) (user_id : String) :
    ImprovementResult :=
  let total := countUserFeedback log user_id
  if total < 3 then
    { needs_more_feedback := true
      suggestions :=
        ["Like or dislike more items to improve recommendations",
         "Save items you're interested in",
         "Try different styles to expand your preferences"]
      feedback_quality := none }
  else
    let likes := countUserFeedbackOfType log user_id "like"
    let dislikes := countUserFeedbackOfType log user_id "dislike"
    let s₁ :=
      if likes * 2 < dislikes then
        ["Consider exploring different style categories",
         "Try items with different silhouettes"]
      else []
    let s₂ :=
      if 0 < likes ∧ dislikes = 0 then
        ["Great! Your preferences are clear",
         "Try saving items you love for future reference"]
      else []
    { needs_more_feedback := false
      suggestions := s₁ ++ s₂
      feedback_quality := some (if 10 ≤ total then "good" else "improving") }

/-- Add `imp` to the running total of `item_id` in the score dictionary,
modelled as an association list in insertion order (Python dict order). -/
def addScore (acc : List (String × ℚ)) (item_id : String) (imp : ℚ) :
    List (String × ℚ) :=
  match acc with
  | [] => [(item_id, imp)]
  | (k, v) :: rest =>
    if k = item_id then (k, v + imp) :: rest else (k, v) :: addScore rest item_id imp

/-- The `item_scores` dictionary of `get_trending_items`: fold the whole
log, skipping records with an empty (falsy) `item_id`. -/
def itemScores (log : List FeedbackRecord) : List (String × ℚ) :=
  log.foldl (fun acc f =>
    if f.item_id = "" then acc else addScore acc f.item_id f.importance) []

/-- `item_scores.get(i, 0)`. -/
def lookupScore (acc : List (String × ℚ)) (item_id : String) : ℚ :=
  match acc with
  | [] => 0
  | (k, v) :: rest => if k = item_id then v else lookupScore rest item_id

/-- `trending_item_ids`: the ids of the top `limit` aggregate scores, in
stable descending score order. -/
def trendingIds (log : List FeedbackRecord) (limit : Nat) : List String :=
  ((sortDescBy (fun kv => kv.2) (itemScores log)).take limit).map (fun kv => kv.1)

/-- `FeedbackManager.get_trending_items`, as a function of the feedback log
and the catalog: hydrate, **in catalog order**, the catalog items whose id
is among the top-`limit` ids, pairing each with its `trending_score`. -/
def getTrendingItems (log : List FeedbackRecord) (items_data : List Item)
    (limit : Nat := 10) : List (Item × ℚ) :=
  let ids := trendingIds log limit
  (items_data.filter (fun it => it.id ∈ ids)).map
    (fun it => (it, lookupScore (itemScores log) it.id))

/-! ### Lemmas about the stable descending sort -/

theorem insertDescBy_perm (key : α → ℚ) (x : α) (l : List α) :
    List.Perm (insertDescBy key x l) (x :: l) := by
  induction l with
  | nil => exact List.Perm.refl _
  | cons y ys ih =>
    unfold insertDescBy
    by_cases h : key x < key y
    · simp only [h, if_true]
      exact (ih.cons y).trans (List.Perm.swap x y ys)
    · simp only [h, if_false]
      exact List.Perm.refl _

theorem sortDescBy_perm (key : α → ℚ) (l : List α) :
    List.Perm (sortDescBy key l) l := by
  induction l with
  | nil => exact List.Perm.refl _
  | cons x xs ih =>
    exact (insertDescBy_perm key x (sortDescBy key xs)).trans (ih.cons x)

theorem insertDescBy_sorted (key : α → ℚ) (x : α) (l : List α)
    (h : l.Pairwise (fun a b => key b ≤ key a)) :
    (insertDescBy key x l).Pairwise (fun a b => key b ≤ key a) := by
  induction l with
  | nil => simp [insertDescBy]
  | cons y ys ih =>
    rw [List.pairwise_cons] at h
    unfold insertDescBy
    by_cases hxy : key x < key y
    · simp only [hxy, if_true]
      rw [List.pairwise_cons]
      refine ⟨fun z hz => ?_, ih h.2⟩
      have hz2 := List.mem_cons.mp (((insertDescBy_perm key x ys).mem_iff).mp hz)
      rcases hz2 with hza | hzb
      · exact hza ▸ le_of_lt hxy
      · exact h.1 z hzb
    · simp only [hxy, if_false]
      rw [List.pairwise_cons]
      refine ⟨fun z hz => ?_, List.pairwise_cons.mpr h⟩
      rcases List.mem_cons.mp hz with hza | hzb
      · exact hza ▸ le_of_not_lt hxy
      · exact le_trans (h.1 z hzb) (le_of_not_lt hxy)

theorem sortDescBy_sorted (key : α → ℚ) (l : List α) :
    (sortDescBy key l).Pairwise (fun a b => key b ≤ key a) := by
  induction l with
  | nil => simp [sortDescBy]
  | cons x xs ih => exact insertDescBy_sorted key x _ ih

theorem insertDescBy_stable (key : α → ℚ) (v : ℚ) (x : α) (l : List α) :
    (insertDescBy key x l).filter (fun a => decide (key a = v)) =
      ((x :: l).filter (fun a => decide (key a = v))) := by
  induction l with
  | nil => rfl
  | cons y ys ih =>
    unfold insertDescBy
    by_cases hxy : key x < key y
    · simp only [hxy, if_true]
      by_cases hx : key x = v
      · have hy : ¬ (key y = v) := by
          intro hy; rw [hx, hy] at hxy; exact lt_irrefl v hxy
        simp only [List.filter_cons, hx, hy] at ih ⊢
        simp only [decide_eq_true_eq] at ih ⊢
        simp [hx, hy] at ih ⊢
        exact ih
      · simp only [List.filter_cons] at ih ⊢
        by_cases hy : key y = v <;> simp [hx, hy] at ih ⊢ <;> exact ih
    · simp only [hxy, if_false]

theorem sortDescBy_stable (key : α → ℚ) (v : ℚ) (l : List α) :
    (sortDescBy key l).filter (fun a => decide (key a = v)) =
      l.filter (fun a => decide (key a = v)) := by
  induction l with
  | nil => rfl
  | cons x xs ih =>
    calc (insertDescBy key x (sortDescBy key xs)).filter (fun a => decide (key a = v))
        = (x :: sortDescBy key xs).filter (fun a => decide (key a = v)) :=
          insertDescBy_stable key v x _
      _ = (x :: xs).filter (fun a => decide (key a = v)) := by
          simp only [List.filter_cons, ih]

/-! ### Arithmetic lemmas -/

theorem roundTo1_natCast (n : ℕ) : roundTo1 (n : ℚ) = n := by
  unfold roundTo1
  have h : ((n : ℚ) * 10) = ((n * 10 : ℕ) : ℚ) := by push_cast; ring
  rw [h, round_natCast]
  push_cast
  field_simp

theorem styleKeywords_length_le (s : String) : (styleKeywords s).length ≤ 5 := by
  unfold styleKeywords
  split <;> try simp
  split <;> try simp
  split <;> try simp
  split <;> try simp
  split <;> try simp
  split <;> simp

theorem fitScoreNat_le (p : Profile) (it : Item) : fitScoreNat p it ≤ 100 :=
  Nat.min_le_right _ _

theorem styleScoreNat_le (p : Profile) (it : Item) : styleScoreNat p it ≤ 100 := by
  unfold styleScoreNat
  dsimp only
  split
  · omega
  · split
    · omega
    · split
      · have h1 : ((styleKeywords (pyLower p.preferred_style)).filter (fun k =>
            pyIn k (pyLower it.style) || pyIn k (pyLower it.title) ||
              pyIn k (pyLower it.description))).length ≤ 5 :=
          le_trans (List.length_filter_le _ _) (styleKeywords_length_le _)
        omega
      · omega

theorem trendScoreNat_le (it : Item) : trendScoreNat it ≤ 100 := by
  unfold trendScoreNat
  split
  · omega
  · split
    · omega
    · split <;> omega

theorem itemScore_fit (p : Profile) (it : Item) :
    (calculateItemScore p it).fit_score = (fitScoreNat p it : ℚ) := by
  simp only [calculateItemScore, calculateFitScore]
  exact roundTo1_natCast _

theorem itemScore_style (p : Profile) (it : Item) :
    (calculateItemScore p it).style_score = (styleScoreNat p it : ℚ) := by
  simp only [calculateItemScore, calculateStyleScore]
  exact roundTo1_natCast _

theorem itemScore_trend (p : Profile) (it : Item) :
    (calculateItemScore p it).trend_score = (trendScoreNat it : ℚ) := by
  simp only [calculateItemScore, calculateTrendScore]
  exact roundTo1_natCast _

theorem itemScore_feedback (p : Profile) (it : Item) :
    (calculateItemScore p it).feedback_score = 75 := by
  simp only [calculateItemScore, calculateFeedbackScore]
  have h := roundTo1_natCast 75
  simpa using h

/-- **C1.** For every user profile and catalog item, the scorer's
`overall_score` equals the weighted sum
`fit_score*0.4 + style_score*0.3 + trend_score*0.2 + feedback_score*0.1`
rounded to 1 decimal place, and each of the four component scores lies in
`[0, 100]`. -/
theorem overall_score_is_rounded_weighted_sum (p : Profile) (it : Item) :
    (calculateItemScore p it).overall_score =
      roundTo1 ((calculateItemScore p it).fit_score * (0.4 : ℚ) +
        (calculateItemScore p it).style_score * (0.3 : ℚ) +
        (calculateItemScore p it).trend_score * (0.2 : ℚ) +
        (calculateItemScore p it).feedback_score * (0.1 : ℚ)) ∧
    (0 ≤ (calculateItemScore p it).fit_score ∧
      (calculateItemScore p it).fit_score ≤ 100) ∧
    (0 ≤ (calculateItemScore p it).style_score ∧
      (calculateItemScore p it).style_score ≤ 100) ∧
    (0 ≤ (calculateItemScore p it).trend_score ∧
      (calculateItemScore p it).trend_score ≤ 100) ∧
    (0 ≤ (calculateItemScore p it).feedback_score ∧
      (calculateItemScore p it).feedback_score ≤ 100) := by
  rw [itemScore_fit, itemScore_style, itemScore_trend, itemScore_feedback]
  refine ⟨?_, ⟨?_, ?_⟩, ⟨?_, ?_⟩, ⟨?_, ?_⟩, by norm_num, by norm_num⟩
  · simp only [calculateItemScore, calculateFitScore, calculateStyleScore,
      calculateTrendScore, calculateFeedbackScore]
    norm_num
  · exact Nat.cast_nonneg _
  · exact_mod_cast fitScoreNat_le p it
  · exact Nat.cast_nonneg _
  · exact_mod_cast styleScoreNat_le p it
  · exact Nat.cast_nonneg _
  · exact_mod_cast trendScoreNat_le it

/-- **C2 (counterexample).** At `likes = 19, saves = 759` the engagement is
exactly `19*0.7 + 759*1.3 = 1000` (also exactly `1000.0` in IEEE-754
double precision), yet the trend score is 80, not the 100 the claim's
`engagement ≥ 1000` band demands: the source compares with strict `>`. -/
theorem trend_band_boundary_cex :
    engagementScore
        { id := "", category := "", style := "", colors := [], title := "",
          description := "", likes := 19, saves := 759 } = 1000 ∧
      calculateTrendScore
        { id := "", category := "", style := "", colors := [], title := "",
          description := "", likes := 19, saves := 759 } = 80 := by
  have he : engagementScore
      { id := "", category := "", style := "", colors := [], title := "",
        description := "", likes := 19, saves := 759 } = 1000 := by
    unfold engagementScore
    norm_num
  refine ⟨he, ?_⟩
  unfold calculateTrendScore trendScoreNat
  rw [he]
  norm_num

/-- **C2 (amended).** The trend score is computed from
`engagement = likes*0.7 + saves*1.3` and banded with strict thresholds:
`engagement > 1000` gives 100, `engagement > 500` gives 80,
`engagement > 100` gives 60, otherwise 40. -/
theorem trend_score_strict_bands (it : Item) :
    (1000 < engagementScore it → calculateTrendScore it = 100) ∧
    (500 < engagementScore it → engagementScore it ≤ 1000 →
      calculateTrendScore it = 80) ∧
    (100 < engagementScore it → engagementScore it ≤ 500 →
      calculateTrendScore it = 60) ∧
    (engagementScore it ≤ 100 → calculateTrendScore it = 40) := by
  unfold calculateTrendScore trendScoreNat
  refine ⟨fun h => ?_, fun h1 h2 => ?_, fun h1 h2 => ?_, fun h => ?_⟩
  · rw [if_pos h]; norm_num
  · rw [if_neg (not_lt.mpr h2), if_pos h1]; norm_num
  · rw [if_neg (not_lt.mpr (le_trans h2 (by norm_num))),
      if_neg (not_lt.mpr h2), if_pos h1]
    norm_num
  · rw [if_neg (not_lt.mpr (le_trans h (by norm_num))),
      if_neg (not_lt.mpr (le_trans h (by norm_num))), if_neg (not_lt.mpr h)]
    norm_num

/-- Witness for the amended C2: one item in each of the four bands. -/
theorem trend_score_strict_bands_witness :
    calculateTrendScore
        { id := "", category := "", style := "", colors := [], title := "",
          description := "", likes := 2000, saves := 0 } = 100 ∧
      calculateTrendScore
        { id := "", category := "", style := "", colors := [], title := "",
          description := "", likes := 0, saves := 500 } = 80 ∧
      calculateTrendScore
        { id := "", category := "", style := "", colors := [], title := "",
          description := "", likes := 0, saves := 100 } = 60 ∧
      calculateTrendScore
        { id := "", category := "", style := "", colors := [], title := "",
          description := "", likes := 0, saves := 0 } = 40 :=
  ⟨(trend_score_strict_bands _).1 (by unfold engagementScore; norm_num),
   (trend_score_strict_bands _).2.1 (by unfold engagementScore; norm_num)
     (by unfold engagementScore; norm_num),
   (trend_score_strict_bands _).2.2.1 (by unfold engagementScore; norm_num)
     (by unfold engagementScore; norm_num),
   (trend_score_strict_bands _).2.2.2 (by unfold engagementScore; norm_num)⟩

/-- The profile of the concrete scenario of C9. -/
def scenarioProfile : Profile :=
  { body_shape := "hourglass", preferred_style := "vintage",
    recommended_colors := ["black", "navy"] }

/-- The item of the concrete scenario of C9. -/
def scenarioItem : Item :=
  { id := "", category := "top", style := "vintage", colors := ["black"],
    title := "Vintage Blouse", description := "", likes := 0, saves := 0 }

/-- **C9.** For the hourglass/vintage profile and the vintage top, the
scorer returns `fit_score = 85` (hourglass/top base, zero keyword bonus)
and `style_score = 90` (exact substring match), and the item passes both
the style gate and the color gate of the filter. -/
theorem scenario_vintage_top :
    (calculateItemScore scenarioProfile scenarioItem).fit_score = 85 ∧
    (calculateItemScore scenarioProfile scenarioItem).style_score = 90 ∧
    styleMatchB scenarioProfile scenarioItem = true ∧
    colorMatchB scenarioProfile scenarioItem = true := by
  rw [itemScore_fit, itemScore_style]
  rw [show fitScoreNat scenarioProfile scenarioItem = 85 from by decide,
    show styleScoreNat scenarioProfile scenarioItem = 90 from by decide]
  refine ⟨by norm_num, by norm_num, by decide, by decide⟩

/-- **C6.** The item filter is idempotent: filtering an already-filtered
list by the same profile yields the same list. -/
theorem filter_idempotent (p : Profile) (items : List Item) :
    filterItemsByPreferences p (filterItemsByPreferences p items) =
      filterItemsByPreferences p items := by
  unfold filterItemsByPreferences
  rw [List.filter_filter]
  congr 1
  funext it
  cases h : (styleMatchB p it && colorMatchB p it) <;> simp [h]

/-- **C4.** The ranker applies the filter (falling back to the full catalog
when the filtered set is empty), scores every surviving item, sorts
descending by `overall_score` with a stable sort — the output is a
permutation of the scored pool, pairwise descending, and every
equal-score fiber keeps its original (catalog) order — and truncates to
`limit`. -/
theorem recommend_outfits_ranking (p : Profile) (items : List Item) (limit : Nat) :
    recommendOutfits p items limit =
      (sortDescBy (fun s => s.overall_score)
        ((if (filterItemsByPreferences p items).isEmpty then items
          else filterItemsByPreferences p items).map
          (calculateItemScore p))).take limit ∧
    List.Perm
      (sortDescBy (fun s => s.overall_score)
        ((if (filterItemsByPreferences p items).isEmpty then items
          else filterItemsByPreferences p items).map (calculateItemScore p)))
      ((if (filterItemsByPreferences p items).isEmpty then items
        else filterItemsByPreferences p items).map (calculateItemScore p)) ∧
    (sortDescBy (fun s => s.overall_score)
        ((if (filterItemsByPreferences p items).isEmpty then items
          else filterItemsByPreferences p items).map
          (calculateItemScore p))).Pairwise
      (fun a b => b.overall_score ≤ a.overall_score) ∧
    ∀ v : ℚ,
      (sortDescBy (fun s => s.overall_score)
          ((if (filterItemsByPreferences p items).isEmpty then items
            else filterItemsByPreferences p items).map
            (calculateItemScore p))).filter
          (fun a => decide (a.overall_score = v)) =
        ((if (filterItemsByPreferences p items).isEmpty then items
          else filterItemsByPreferences p items).map
          (calculateItemScore p)).filter (fun a => decide (a.overall_score = v)) :=
  ⟨rfl, sortDescBy_perm _ _, sortDescBy_sorted _ _, fun v => sortDescBy_stable _ v _⟩

/-- **C7.** `record_feedback` rejects exactly the feedback types outside
the five recognized kinds, and a recognized kind is stored verbatim,
never coerced. -/
theorem record_feedback_validation (user_id item_id feedback_type : String) :
    ((∃ e, recordFeedback user_id item_id feedback_type = Except.error e) ↔
      feedback_type ∉ (["like", "dislike", "save", "share", "view"] : List String)) ∧
    ∀ r, recordFeedback user_id item_id feedback_type = Except.ok r →
      r.feedback_type = feedback_type := by
  constructor
  · unfold recordFeedback feedbackTypes
    by_cases h : feedback_type ∈ (["like", "dislike", "save", "share", "view"] : List String)
    · simp [h]
    · simp [h]
  · intro r hr
    unfold recordFeedback at hr
    by_cases h : feedback_type ∈ feedbackTypes
    · rw [if_pos h] at hr
      cases hr
      rfl
    · rw [if_neg h] at hr
      cases hr

/-- Witness for C7: "like" is accepted and stored verbatim, with the
record the source builds for it. -/
theorem record_feedback_validation_witness :
    ({ user_id := "u1", item_id := "i1", feedback_type := "like",
       importance := (1.0 : ℚ) } : FeedbackRecord).feedback_type = "like" :=
  (record_feedback_validation "u1" "i1" "like").2
    { user_id := "u1", item_id := "i1", feedback_type := "like",
      importance := (1.0 : ℚ) }
    (by simp [recordFeedback, feedbackTypes, importanceWeight])

/-- **C8.** With fewer than 3 events `improvementSuggestions` flags
`needs_more_feedback`; with exactly 3 it does not and reports quality
"improving"; from 3 events on, quality is "good" iff the user has at
least 10 events. -/
theorem improvement_suggestions_thresholds (log : List FeedbackRecord) (user_id : String) :
    (countUserFeedback log user_id = 2 →
      (getRecommendationImprovements log user_id).needs_more_feedback = true) ∧
    (countUserFeedback log user_id = 3 →
      (getRecommendationImprovements log user_id).needs_more_feedback = false ∧
      (getRecommendationImprovements log user_id).feedback_quality = some "improving") ∧
    (3 ≤ countUserFeedback log user_id →
      (getRecommendationImprovements log user_id).feedback_quality =
        some (if 10 ≤ countUserFeedback log user_id then "good" else "improving")) := by
  refine ⟨fun h2 => ?_, fun h3 => ?_, fun h3 => ?_⟩
  · unfold getRecommendationImprovements
    rw [if_pos (by omega : countUserFeedback log user_id < 3)]
  · unfold getRecommendationImprovements
    rw [if_neg (by omega : ¬ countUserFeedback log user_id < 3)]
    exact ⟨rfl, by rw [if_neg (by omega : ¬ 10 ≤ countUserFeedback log user_id)]⟩
  · unfold getRecommendationImprovements
    rw [if_neg (by omega : ¬ countUserFeedback log user_id < 3)]

/-- Witness for C8: a user with 2 like events is told to give more
feedback; with 3 events the flag clears at quality "improving"; with 10
events the quality is "good". -/
theorem improvement_suggestions_thresholds_witness :
    (getRecommendationImprovements
        [{ user_id := "u", item_id := "a", feedback_type := "like", importance := 1 },
         { user_id := "u", item_id := "b", feedback_type := "like", importance := 1 }]
        "u").needs_more_feedback = true ∧
    (getRecommendationImprovements
        [{ user_id := "u", item_id := "a", feedback_type := "like", importance := 1 },
         { user_id := "u", item_id := "b", feedback_type := "like", importance := 1 },
         { user_id := "u", item_id := "c", feedback_type := "view", importance := 0.3 }]
        "u").needs_more_feedback = false ∧
    (getRecommendationImprovements
        (List.replicate 10
          { user_id := "u", item_id := "a", feedback_type := "view", importance := 0.3 })
        "u").feedback_quality = some "good" := by
  refine ⟨?_, ?_, ?_⟩
  · exact (improvement_suggestions_thresholds _ "u").1 (by decide)
  · exact ((improvement_suggestions_thresholds _ "u").2.1 (by decide)).1
  · have h := (improvement_suggestions_thresholds
      (List.replicate 10
        ({ user_id := "u", item_id := "a", feedback_type := "view", importance := 0.3 }
          : FeedbackRecord)) "u").2.2
    have hc : countUserFeedback
        (List.replicate 10
          ({ user_id := "u", item_id := "a", feedback_type := "view", importance := 0.3 }
            : FeedbackRecord)) "u" = 10 := by decide
    rw [h (by omega), if_pos (by omega)]

/-- The structural invariant of a user's feedback history: the liked and
disliked lists are duplicate-free and share no item. -/
def HistoryInv (h : FeedbackHistory) : Prop :=
  h.liked_items.Nodup ∧ h.disliked_items.Nodup ∧
    ∀ x, x ∈ h.liked_items → x ∉ h.disliked_items

theorem historyInv_empty : HistoryInv emptyHistory :=
  ⟨List.nodup_nil, List.nodup_nil, fun x hx => absurd hx (List.not_mem_nil x)⟩

theorem nodup_append_singleton {l : List String} {a : String}
    (hl : l.Nodup) (ha : a ∉ l) : (l ++ [a]).Nodup := by
  rw [List.nodup_append]
  exact ⟨hl, List.nodup_singleton a, by simpa using ha⟩

theorem historyInv_update (h : FeedbackHistory) (item_id feedback_type : String)
    (hinv : HistoryInv h) :
    HistoryInv (updateUserPreferences h item_id feedback_type) := by
  obtain ⟨hl, hd, hdisj⟩ := hinv
  by_cases hlike : feedback_type = "like"
  · subst hlike
    simp only [updateUserPreferences, if_pos rfl]
    by_cases hml : item_id ∈ h.liked_items <;> by_cases hmd : item_id ∈ h.disliked_items
    · rw [if_pos hml, if_pos hmd]
      refine ⟨hl, hd.erase item_id, fun x hx hxe => hdisj x hx (List.mem_of_mem_erase hxe)⟩
    · rw [if_pos hml, if_neg hmd]
      exact ⟨hl, hd, hdisj⟩
    · rw [if_neg hml, if_pos hmd]
      refine ⟨nodup_append_singleton hl hml, hd.erase item_id, fun x hx hxe => ?_⟩
      rcases List.mem_append.mp hx with hxl | hxr
      · exact hdisj x hxl (List.mem_of_mem_erase hxe)
      · have hx_eq : x = item_id := by simpa using hxr
        subst hx_eq
        exact ((hd.mem_erase_iff).mp hxe).1 rfl
    · rw [if_neg hml, if_neg hmd]
      refine ⟨nodup_append_singleton hl hml, hd, fun x hx hxd => ?_⟩
      rcases List.mem_append.mp hx with hxl | hxr
      · exact hdisj x hxl hxd
      · have hx_eq : x = item_id := by simpa using hxr
        exact hmd (hx_eq ▸ hxd)
  · by_cases hdis : feedback_type = "dislike"
    · subst hdis
      simp only [updateUserPreferences, if_neg (by decide : ¬ ("dislike" = "like")),
        if_pos rfl]
      by_cases hml : item_id ∈ h.liked_items <;> by_cases hmd : item_id ∈ h.disliked_items
      · rw [if_pos hml, if_pos hmd]
        refine ⟨hl.erase item_id, hd, fun x hx => hdisj x (List.mem_of_mem_erase hx)⟩
      · rw [if_pos hml, if_neg hmd]
        refine ⟨hl.erase item_id, nodup_append_singleton hd hmd, fun x hx hxd => ?_⟩
        have hx2 := (hl.mem_erase_iff).mp hx
        rcases List.mem_append.mp hxd with hxl | hxr
        · exact hdisj x hx2.2 hxl
        · exact hx2.1 (by simpa using hxr)
      · rw [if_neg hml, if_pos hmd]
        exact ⟨hl, hd, hdisj⟩
      · rw [if_neg hml, if_neg hmd]
        refine ⟨hl, nodup_append_singleton hd hmd, fun x hx hxd => ?_⟩
        rcases List.mem_append.mp hxd with hxl | hxr
        · exact hdisj x hx hxl
        · have hx_eq : x = item_id := by simpa using hxr
          exact hml (hx_eq ▸ hx)
    · by_cases hsave : feedback_type = "save"
      · subst hsave
        simp only [updateUserPreferences, if_neg (by decide : ¬ ("save" = "like")),
          if_neg (by decide : ¬ ("save" = "dislike")), if_pos rfl]
        exact ⟨hl, hd, hdisj⟩
      · simp only [updateUserPreferences, if_neg hlike, if_neg hdis, if_neg hsave]
        exact ⟨hl, hd, hdisj⟩

theorem historyInv_applyEvents (events : List (String × String)) :
    HistoryInv (applyEvents events) := by
  unfold applyEvents
  induction events using List.reverseRecOn with
  | nil => exact historyInv_empty
  | append_singleton evs e ih =>
    rw [List.foldl_append]
    exact historyInv_update _ e.1 e.2 ih

theorem update_like_mem (h : FeedbackHistory) (item_id : String)
    (hinv : HistoryInv h) :
    item_id ∈ (updateUserPreferences h item_id "like").liked_items ∧
      item_id ∉ (updateUserPreferences h item_id "like").disliked_items := by
  obtain ⟨_, hd, _⟩ := hinv
  simp only [updateUserPreferences, if_pos rfl]
  constructor
  · by_cases hml : item_id ∈ h.liked_items
    · rw [if_pos hml]; exact hml
    · rw [if_neg hml]; simp
  · by_cases hmd : item_id ∈ h.disliked_items
    · rw [if_pos hmd]
      intro hxe
      exact ((hd.mem_erase_iff).mp hxe).1 rfl
    · rw [if_neg hmd]; exact hmd

theorem update_dislike_mem (h : FeedbackHistory) (item_id : String)
    (hinv : HistoryInv h) :
    item_id ∈ (updateUserPreferences h item_id "dislike").disliked_items ∧
      item_id ∉ (updateUserPreferences h item_id "dislike").liked_items := by
  obtain ⟨hl, _, _⟩ := hinv
  simp only [updateUserPreferences, if_neg (by decide : ¬ ("dislike" = "like")),
    if_pos rfl]
  constructor
  · by_cases hmd : item_id ∈ h.disliked_items
    · rw [if_pos hmd]; exact hmd
    · rw [if_neg hmd]; simp
  · by_cases hml : item_id ∈ h.liked_items
    · rw [if_pos hml]
      intro hxe
      exact ((hl.mem_erase_iff).mp hxe).1 rfl
    · rw [if_neg hml]; exact hml

/-- **C5.** A "like" then a "dislike" for the same item leaves the item in
the disliked set and out of the liked set; symmetrically for "dislike"
then "like"; and after every event sequence recorded from a fresh history
the liked and disliked sets are disjoint. -/
theorem feedback_mutual_exclusivity (events : List (String × String)) (i : String) :
    (i ∈ (applyEvents (events ++ [(i, "like"), (i, "dislike")])).disliked_items ∧
      i ∉ (applyEvents (events ++ [(i, "like"), (i, "dislike")])).liked_items) ∧
    (i ∈ (applyEvents (events ++ [(i, "dislike"), (i, "like")])).liked_items ∧
      i ∉ (applyEvents (events ++ [(i, "dislike"), (i, "like")])).disliked_items) ∧
    ∀ x, x ∈ (applyEvents events).liked_items →
      x ∉ (applyEvents events).disliked_items := by
  have hbase : HistoryInv (applyEvents events) := historyInv_applyEvents events
  have heq : ∀ a b : String × String,
      applyEvents (events ++ [a, b]) =
        updateUserPreferences
          (updateUserPreferences (applyEvents events) a.1 a.2) b.1 b.2 := by
    intro a b
    simp [applyEvents, List.foldl_append]
  refine ⟨?_, ?_, hbase.2.2⟩
  · rw [heq (i, "like") (i, "dislike")]
    exact update_dislike_mem _ i (historyInv_update _ i "like" hbase)
  · rw [heq (i, "dislike") (i, "like")]
    exact update_like_mem _ i (historyInv_update _ i "dislike" hbase)

/-- Witness for C5: the two-event scenarios at a concrete item, and the
disjointness applied to a user who liked one item. -/
theorem feedback_mutual_exclusivity_witness :
    ("x" ∈ (applyEvents [("x", "like"), ("x", "dislike")]).disliked_items ∧
      "x" ∉ (applyEvents [("x", "like"), ("x", "dislike")]).liked_items) ∧
    "a" ∉ (applyEvents [("a", "like")]).disliked_items :=
  ⟨(feedback_mutual_exclusivity [] "x").1,
   (feedback_mutual_exclusivity [("a", "like")] "a").2.2 "a" (by decide)⟩

/-! ### Trending items (C3) -/

/-- The total importance a given (non-empty) item id accumulates over the
whole feedback log. -/
def sumImportance (log : List FeedbackRecord) (item_id : String) : ℚ :=
  ((log.filter (fun f => f.item_id = item_id)).map (fun f => f.importance)).sum

theorem lookupScore_addScore (acc : List (String × ℚ)) (i : String) (imp : ℚ)
    (j : String) :
    lookupScore (addScore acc i imp) j =
      lookupScore acc j + (if j = i then imp else 0) := by
  induction acc with
  | nil =>
    simp only [addScore, lookupScore]
    by_cases hij : i = j
    · rw [if_pos hij, if_pos hij.symm]; ring
    · rw [if_neg hij, if_neg (fun h => hij h.symm)]; ring
  | cons kv rest ih =>
    obtain ⟨k, v⟩ := kv
    simp only [addScore]
    by_cases hki : k = i
    · rw [if_pos hki]
      simp only [lookupScore]
      by_cases hkj : k = j
      · rw [if_pos hkj, if_pos hkj, if_pos (hkj.symm.trans hki)]
      · rw [if_neg hkj, if_neg hkj,
          if_neg (fun h => hkj (hki.trans h.symm))]
        ring
    · rw [if_neg hki]
      simp only [lookupScore]
      by_cases hkj : k = j
      · rw [if_pos hkj, if_pos hkj, if_neg (fun h => hki (hkj.trans h))]
        ring
      · rw [if_neg hkj, if_neg hkj, ih]

theorem lookupScore_foldl (log : List FeedbackRecord) (acc : List (String × ℚ))
    (j : String) (hj : j ≠ "") :
    lookupScore
        (log.foldl (fun a f =>
          if f.item_id = "" then a else addScore a f.item_id f.importance) acc) j =
      lookupScore acc j + sumImportance log j := by
  induction log generalizing acc with
  | nil => simp [sumImportance]
  | cons f rest ih =>
    simp only [List.foldl_cons]
    by_cases hf : f.item_id = ""
    · rw [if_pos hf, ih acc]
      have hne : ¬ (f.item_id = j) := fun h => hj (h ▸ hf)
      simp [sumImportance, List.filter_cons, hne]
    · rw [if_neg hf, ih _, lookupScore_addScore]
      have hsum : sumImportance (f :: rest) j =
          (if j = f.item_id then f.importance else 0) + sumImportance rest j := by
        by_cases hfj : f.item_id = j
        · rw [if_pos hfj.symm]
          simp [sumImportance, List.filter_cons, hfj]
        · rw [if_neg (fun h => hfj h.symm)]
          simp [sumImportance, List.filter_cons, hfj]
      rw [hsum]
      ring

theorem lookupScore_itemScores (log : List FeedbackRecord) (j : String)
    (hj : j ≠ "") :
    lookupScore (itemScores log) j = sumImportance log j := by
  unfold itemScores
  rw [lookupScore_foldl log [] j hj]
  simp [lookupScore]

/-- First catalog item of the C3 counterexample. -/
def cexItemA : Item :=
  { id := "A", category := "top", style := "", colors := [], title := "",
    description := "", likes := 0, saves := 0 }

/-- Second catalog item of the C3 counterexample. -/
def cexItemB : Item :=
  { id := "B", category := "top", style := "", colors := [], title := "",
    description := "", likes := 0, saves := 0 }

/-- Feedback log of the C3 counterexample: item "A" has aggregate
importance 1, item "B" has aggregate importance 2. -/
def cexLog : List FeedbackRecord :=
  [{ user_id := "u", item_id := "A", feedback_type := "like", importance := 1 },
   { user_id := "v", item_id := "B", feedback_type := "like", importance := 2 }]

/-- **C3 (counterexample).** With catalog `[A, B]` and aggregates
`A ↦ 1, B ↦ 2`, `trending(2)` returns `[(A, 1), (B, 2)]` — catalog order —
although the claimed descending-importance order would put B (aggregate 2)
before A (aggregate 1): the source re-collects the selected ids by
iterating the catalog, so the output is not sorted by aggregate
importance. -/
theorem trending_order_cex :
    getTrendingItems cexLog [cexItemA, cexItemB] 2 =
      [(cexItemA, 1), (cexItemB, 2)] ∧ (1 : ℚ) < 2 := by
  constructor
  · decide
  · norm_num

/-- **C3 (amended).** `trending(n)` returns, **in catalog order**, exactly
the catalog items whose id is among the top-`n` ids of the
aggregate-importance ranking (a stable descending sort of the per-id
aggregates over the whole log), each hydrated with its aggregate
importance as its trending score; ids with feedback but no catalog record
are silently dropped (the output is a sub-sequence of the catalog). -/
theorem trending_items_spec (log : List FeedbackRecord) (items_data : List Item)
    (n : Nat) :
    (getTrendingItems log items_data n).map Prod.fst =
      items_data.filter (fun it => it.id ∈ trendingIds log n) ∧
    List.Sublist ((getTrendingItems log items_data n).map Prod.fst) items_data ∧
    (∀ x ∈ getTrendingItems log items_data n,
      x.1.id ∈ trendingIds log n ∧
      (x.1.id ≠ "" → x.2 = sumImportance log x.1.id)) ∧
    List.Perm (sortDescBy (fun kv => kv.2) (itemScores log)) (itemScores log) ∧
    (sortDescBy (fun kv => kv.2) (itemScores log)).Pairwise
      (fun a b => b.2 ≤ a.2) := by
  have hmap : (getTrendingItems log items_data n).map Prod.fst =
      items_data.filter (fun it => it.id ∈ trendingIds log n) := by
    unfold getTrendingItems
    dsimp only
    rw [List.map_map]
    exact List.map_id _
  refine ⟨hmap, ?_, ?_, sortDescBy_perm _ _, sortDescBy_sorted _ _⟩
  · rw [hmap]
    exact List.filter_sublist _
  · intro x hx
    unfold getTrendingItems at hx
    obtain ⟨it, hit, hx_eq⟩ := List.mem_map.mp hx
    obtain ⟨hit_mem, hit_id⟩ := List.mem_filter.mp hit
    subst hx_eq
    refine ⟨by simpa using hit_id, fun hne => ?_⟩
    exact lookupScore_itemScores log it.id hne

/-- Witness for the amended C3, at the counterexample input: item "A" is
among the top-2 ids and its hydrated score is its aggregate importance. -/
theorem trending_items_spec_witness :
    "A" ∈ trendingIds cexLog 2 ∧ (1 : ℚ) = sumImportance cexLog "A" :=
  ⟨((trending_items_spec cexLog [cexItemA, cexItemB] 2).2.2.1
      (cexItemA, 1) (by decide)).1,
   ((trending_items_spec cexLog [cexItemA, cexItemB] 2).2.2.1
      (cexItemA, 1) (by decide)).2 (by decide)⟩

/-! ### Outfit assembly (C10) -/

theorem mem_pickFrom {x : ScoredItem} {k : Nat} {l : List ScoredItem}
    (hx : x ∈ pickFrom k l) : x ∈ l := by
  cases l with
  | nil => cases hx
  | cons y ys =>
    simp only [pickFrom, List.mem_singleton] at hx
    exact hx ▸ List.get_mem _ _ _

theorem pickFrom_pairwise (R : ScoredItem → ScoredItem → Prop) (k : Nat)
    (l : List ScoredItem) : (pickFrom k l).Pairwise R := by
  cases l with
  | nil => exact List.Pairwise.nil
  | cons y ys => simp [pickFrom]

theorem mem_pickFrom_take_filter {x : ScoredItem} {k n : Nat}
    {recs : List ScoredItem} {c : String}
    (hx : x ∈ pickFrom k ((recs.filter (fun r => r.item.category = c)).take n)) :
    x.item.category = c := by
  have h1 : x ∈ (recs.filter (fun r => r.item.category = c)).take n :=
    mem_pickFrom hx
  have h2 : x ∈ recs.filter (fun r => r.item.category = c) :=
    List.take_subset n _ h1
  have h3 := (List.mem_filter.mp h2).2
  simpa using h3

/-- **C10.** Every outfit produced by the assembler — for every behaviour
of the random source — contains at most one item from each of the five
wearable categories and never contains an item of any other category
(such as "dress" or "other"), even when such an item is among the
recommendations. -/
theorem outfit_category_invariant (ch : Nat → Nat → Nat)
    (recommendations : List ScoredItem) :
    ∀ o ∈ createOutfitCombinations ch recommendations,
      (∀ x ∈ o.items,
        x.item.category ∈
          (["top", "bottom", "outerwear", "shoes", "accessories"] : List String)) ∧
      o.items.Pairwise (fun a b => a.item.category ≠ b.item.category) := by
  intro o ho
  unfold createOutfitCombinations at ho
  dsimp only at ho
  obtain ⟨i, _, ho_eq⟩ := List.mem_map.mp ho
  subst ho_eq
  dsimp only
  have hT : ∀ x ∈ pickFrom (ch i 0)
      ((recommendations.filter (fun r => r.item.category = "top")).take 3),
      x.item.category = "top" := fun x hx => mem_pickFrom_take_filter hx
  have hB : ∀ x ∈ pickFrom (ch i 1)
      ((recommendations.filter (fun r => r.item.category = "bottom")).take 3),
      x.item.category = "bottom" := fun x hx => mem_pickFrom_take_filter hx
  have hO : ∀ x ∈ pickFrom (ch i 2)
      ((recommendations.filter (fun r => r.item.category = "outerwear")).take 2),
      x.item.category = "outerwear" := fun x hx => mem_pickFrom_take_filter hx
  have hS : ∀ x ∈ pickFrom (ch i 3)
      ((recommendations.filter (fun r => r.item.category = "shoes")).take 2),
      x.item.category = "shoes" := fun x hx => mem_pickFrom_take_filter hx
  have hA : ∀ x ∈ pickFrom (ch i 4)
      ((recommendations.filter (fun r => r.item.category = "accessories")).take 2),
      x.item.category = "accessories" := fun x hx => mem_pickFrom_take_filter hx
  constructor
  · intro x hx
    rcases List.mem_append.mp hx with hx | h5
    · rcases List.mem_append.mp hx with hx | h4
      · rcases List.mem_append.mp hx with hx | h3
        · rcases List.mem_append.mp hx with h1 | h2
          · rw [hT x h1]; decide
          · rw [hB x h2]; decide
        · rw [hO x h3]; decide
      · rw [hS x h4]; decide
    · rw [hA x h5]; decide
  · rw [List.pairwise_append]
    refine ⟨?_, pickFrom_pairwise _ _ _, ?_⟩
    · rw [List.pairwise_append]
      refine ⟨?_, pickFrom_pairwise _ _ _, ?_⟩
      · rw [List.pairwise_append]
        refine ⟨?_, pickFrom_pairwise _ _ _, ?_⟩
        · rw [List.pairwise_append]
          refine ⟨pickFrom_pairwise _ _ _, pickFrom_pairwise _ _ _,
            fun a ha b hb => ?_⟩
          rw [hT a ha, hB b hb]; decide
        · intro a ha b hb
          rw [hO b hb]
          rcases List.mem_append.mp ha with ha1 | ha2
          · rw [hT a ha1]; decide
          · rw [hB a ha2]; decide
      · intro a ha b hb
        rw [hS b hb]
        rcases List.mem_append.mp ha with ha | ha3
        · rcases List.mem_append.mp ha with ha1 | ha2
          · rw [hT a ha1]; decide
          · rw [hB a ha2]; decide
        · rw [hO a ha3]; decide
    · intro a ha b hb
      rw [hA b hb]
      rcases List.mem_append.mp ha with ha | ha4
      · rcases List.mem_append.mp ha with ha | ha3
        · rcases List.mem_append.mp ha with ha1 | ha2
          · rw [hT a ha1]; decide
          · rw [hB a ha2]; decide
        · rw [hO a ha3]; decide
      · rw [hS a ha4]; decide

def outfitWitnessRec : ScoredItem :=
  { item := { id := "t1", category := "top", style := "casual", colors := [],
              title := "", description := "", likes := 0, saves := 0 },
    fit_score := 0, style_score := 0, trend_score := 0, feedback_score := 0,
    overall_score := 0, explanation := "", styling_tips := [] }

def outfitWitnessOutfit : Outfit :=
  { outfit_id := "outfit_1", items := [outfitWitnessRec],
    total_score := 0, style_cohesion := 50 }

theorem createOutfit_witness_eq :
    createOutfitCombinations (fun _ _ => 0) [outfitWitnessRec] =
      [outfitWitnessOutfit] := by
  unfold createOutfitCombinations
  dsimp only
  have h1 : List.filter (fun r => decide (r.item.category = "top"))
      [outfitWitnessRec] = [outfitWitnessRec] := by decide
  have h2 : List.filter (fun r => decide (r.item.category = "bottom"))
      [outfitWitnessRec] = [] := by decide
  have h3 : List.filter (fun r => decide (r.item.category = "outerwear"))
      [outfitWitnessRec] = [] := by decide
  have h4 : List.filter (fun r => decide (r.item.category = "shoes"))
      [outfitWitnessRec] = [] := by decide
  have h5 : List.filter (fun r => decide (r.item.category = "accessories"))
      [outfitWitnessRec] = [] := by decide
  have hp1 : pickFrom 0 (List.take 3 [outfitWitnessRec]) = [outfitWitnessRec] := by
    decide
  have hp2 : pickFrom 0 (List.take 3 ([] : List ScoredItem)) = [] := by decide
  have hp3 : pickFrom 0 (List.take 2 ([] : List ScoredItem)) = [] := by decide
  simp only [h1, h2, h3, h4, h5, hp1, hp2, hp3, List.append_nil, List.nil_append]
  norm_num [outfitWitnessOutfit, roundTo1, round_eq, outfitWitnessRec]
  have hsc : styleCohesion [outfitWitnessRec] = 50 := by
    unfold styleCohesion
    norm_num
  have hr : List.range 1 = [0] := by decide
  simp only [hr, List.map_cons, List.map_nil, hsc, outfitWitnessRec]
  decide

/-- Witness for C10: a single "top" recommendation under the constant-zero
choice oracle yields one outfit whose item is in the five wearable
categories, with pairwise-distinct categories. -/
theorem outfit_category_invariant_witness :
    (outfitWitnessRec.item.category ∈
      (["top", "bottom", "outerwear", "shoes", "accessories"] : List String)) ∧
    outfitWitnessOutfit.items.Pairwise
      (fun a b => a.item.category ≠ b.item.category) := by
  have h := outfit_category_invariant (fun _ _ => 0) [outfitWitnessRec]
    outfitWitnessOutfit
    (by rw [createOutfit_witness_eq]; exact List.mem_singleton_self _)
  exact ⟨h.1 outfitWitnessRec (by simp [outfitWitnessOutfit]), h.2⟩
